import Mathlib

/-!
Verification development for the pixel transcoding and window/level pipeline
of the simple-dicom-viewer repository (src/imaging.rs, src/lib.rs).

Modelling conventions:
* Rust `f64` values are embedded as exact rationals (ℚ); all arithmetic in the
  windowing pipeline is affine except the float exponential used by the SIGMOID
  transfer function, which has no exact rational counterpart, so the pipeline
  is parametrised over a function `fexp : ℚ → ℚ` standing for `f64::exp`.
* Rust `u8`/`u16`/`u32` values are embedded as ℕ; the saturating float-to-u8
  cast `x as u8` is `f64AsU8` below (clamp to [0, 255], truncating).
* The DICOM object model (the `dicom` crate) is an external collaborator; it is
  embedded as a record of the attribute elements the code reads, each element
  recording the outcomes of the conversions the code performs on it
  (`to_float64`, `to_str`, `to_int`), with `none` meaning the conversion fails.
* Fallible code returns `Except Failure`; `Failure.err` models a returned
  `Result::Err` (the `whatever!` error paths) and `Failure.panicked` models a
  Rust panic (out-of-bounds slice indexing, failed `assert!`, `unwrap`).
* In-place mutation of the LUT and of the RGBA output buffer is embedded as
  explicit state passing: such functions return `Except Failure Unit × List ℕ`,
  the second component being the buffer contents after the call (on a panic,
  the writes performed before the panic are retained, as in Rust).
-/

/-- A set of visualization window level parameters (struct `WindowLevel`). -/
structure WindowLevel where
  width : ℚ
  center : ℚ
deriving Repr, DecidableEq

/-- An attribute element of a DICOM object, recording the outcome of each
conversion the viewer performs on it: `to_float64`, `to_str`, `to_int`.
A `none` outcome means the corresponding conversion fails. -/
structure Elem where
  asFloat : Option ℚ
  asStr : Option String
  asInt : Option ℕ
deriving Repr, DecidableEq

/-- The PixelData element: it may be an encapsulated pixel sequence, and
records the outcomes of `to_bytes` and of the 16-bit reads
(`uint16_slice` / `to_multi_int::<u16>`). -/
structure PixelDataElem where
  isPixelSequence : Bool
  asBytes : Option (List ℕ)
  asU16 : Option (List ℕ)
deriving Repr, DecidableEq

/-- The attribute accessor view of a `DefaultDicomObject`: one field per tag
the viewer reads, `none` meaning the attribute is absent. -/
structure DicomObject where
  windowWidth : Option Elem
  windowCenter : Option Elem
  rescaleSlope : Option Elem
  rescaleIntercept : Option Elem
  voiLutFunction : Option Elem
  bitsStored : Option Elem
  bitsAllocated : Option Elem
  photometricInterpretation : Option Elem
  rows : Option Elem
  columns : Option Elem
  samplesPerPixel : Option Elem
  pixelData : Option PixelDataElem
deriving Repr, DecidableEq

/-- A failure of the pipeline: `err` is a returned error value (`whatever!`),
`panicked` is a Rust panic (slice index out of bounds, `assert!`, `unwrap`). -/
inductive Failure where
  | err (msg : String)
  | panicked (msg : String)
deriving Repr, DecidableEq

/-- Model of `window_level_of`: look up WindowWidth and WindowCenter with
`element_opt`; when both are present read each with `to_float64` (failure is a
decode error); when either is absent return `None` without error. -/
def window_level_of (obj : DicomObject) : Except Failure (Option WindowLevel) :=
  match obj.windowWidth, obj.windowCenter with
  | some ww, some wc =>
    match ww.asFloat with
    | none => .error (.err "Could not read WindowWidth as a number")
    | some w =>
      match wc.asFloat with
      | none => .error (.err "Could not read WindowCenter as a number")
      | some c => .ok (some { width := w, center := c })
  | _, _ => .ok none

/-- Model of the Rust saturating cast `x as u8` on an f64 value: truncate
toward zero and clamp to [0, 255] (for negative inputs clamping to 0 makes
truncation and floor agree). -/
def f64AsU8 (x : ℚ) : ℕ := (min 255 ⌊x⌋).toNat

/-- Model of `window_level_linear` (DICOM C.11.2.1.2.1), branch for branch. -/
def window_level_linear (x ww wc : ℚ) : ℚ :=
  let mn := wc - (ww - 1) / 2
  let mx := wc - 1/2 + (ww - 1) / 2
  if x ≤ mn then
    0
  else if x > mx then
    255
  else
    ((x - (wc - 1/2)) / (ww - 1) + 1/2) * 255

/-- Model of `window_level_linear_exact` (DICOM C.11.2.1.3.2). -/
def window_level_linear_exact (value ww wc : ℚ) : ℚ :=
  let mn := wc - ww / 2
  let mx := wc + ww / 2
  if value ≤ mn then
    0
  else if value > mx then
    255
  else
    ((value - wc) / ww + 1/2) * 255

/-- Model of `window_level_sigmoid` (DICOM C.11.2.1.3.1), parametrised over
the float exponential `fexp`; the `assert!(ww >= 1.)` is modelled in
`apply_window_level` below since a failed assert is a panic. -/
def window_level_sigmoid (fexp : ℚ → ℚ) (value ww wc : ℚ) : ℚ :=
  255 / (1 + fexp (-4 * (value - wc) / ww))

/-- Model of `apply_window_level`: dispatch on the VOI LUT function name.
The catch-all branch and the failed `assert!` in `window_level_sigmoid`
are panics. -/
def apply_window_level (fexp : ℚ → ℚ) (x : ℚ) (voi_lut_function : String)
    (window_level : WindowLevel) : Except Failure ℚ :=
  if voi_lut_function = "LINEAR_EXACT" then
    .ok (window_level_linear_exact x window_level.width window_level.center)
  else if voi_lut_function = "SIGMOID" then
    if window_level.width < 1 then
      .error (.panicked "assertion failed: ww >= 1.")
    else
      .ok (window_level_sigmoid fexp x window_level.width window_level.center)
  else if voi_lut_function = "LINEAR" then
    .ok (window_level_linear x window_level.width window_level.center)
  else
    .error (.panicked "Unsupported VOI LUT function")

/-- Model of the RescaleSlope extraction in `update_pixel_data_lut_with`:
absent defaults to 1.0, present but non-numeric is an error. -/
def rescaleSlopeOf (obj : DicomObject) : Except Failure ℚ :=
  match obj.rescaleSlope with
  | some e =>
    match e.asFloat with
    | some v => .ok v
    | none => .error (.err "RescaleSlope is not a number")
  | none => .ok 1

/-- Model of the RescaleIntercept extraction in `update_pixel_data_lut_with`:
absent defaults to 0.0, present but non-numeric is an error. -/
def rescaleInterceptOf (obj : DicomObject) : Except Failure ℚ :=
  match obj.rescaleIntercept with
  | some e =>
    match e.asFloat with
    | some v => .ok v
    | none => .error (.err "RescaleSlope is not a number")
  | none => .ok 0

/-- Model of the VOILUTFunction extraction in `update_pixel_data_lut_with`:
absent defaults to the string LINEAR, present but unreadable is an error. -/
def voiLutFunctionOf (obj : DicomObject) : Except Failure String :=
  match obj.voiLutFunction with
  | some e =>
    match e.asStr with
    | some s => .ok s
    | none => .error (.err "VOILUTFunction is not a string")
  | none => .ok "LINEAR"

/-- Model of the write loop of `update_pixel_data_lut_with`: entry `k + j` of
the remaining buffer is overwritten with `f64AsU8` of `f (k + j)`, in order;
if `f` fails (a panic inside `apply_window_level`), entries already written
keep their new values and the rest of the buffer is untouched. -/
def lutLoop (f : ℕ → Except Failure ℚ) : ℕ → List ℕ → Except Failure Unit × List ℕ
  | _, [] => (.ok (), [])
  | k, y :: rest =>
    match f k with
    | .error e => (.error e, y :: rest)
    | .ok x =>
      let r := lutLoop f (k + 1) rest
      (r.1, f64AsU8 x :: r.2)

/-- Model of `update_pixel_data_lut_with`: read RescaleSlope, RescaleIntercept
and VOILUTFunction (with defaults), reject unsupported VOI LUT function names,
then overwrite every LUT entry `i` with the windowed value of
`i * rescale_slope + rescale_intercept`. The buffer is returned unchanged on
every returned error (all of which precede the loop). -/
def update_pixel_data_lut_with (fexp : ℚ → ℚ) (lut : List ℕ) (obj : DicomObject)
    (window_level : WindowLevel) : Except Failure Unit × List ℕ :=
  match rescaleSlopeOf obj with
  | .error e => (.error e, lut)
  | .ok rescale_slope =>
    match rescaleInterceptOf obj with
    | .error e => (.error e, lut)
    | .ok rescale_intercept =>
      match voiLutFunctionOf obj with
      | .error e => (.error e, lut)
      | .ok voi_lut_function =>
        if voi_lut_function ≠ "LINEAR" ∧ voi_lut_function ≠ "LINEAR_EXACT" ∧
            voi_lut_function ≠ "SIGMOID" then
          (.error (.err "Unsupported VOI LUT function"), lut)
        else
          lutLoop
            (fun i =>
              apply_window_level fexp ((i : ℚ) * rescale_slope + rescale_intercept)
                voi_lut_function window_level)
            0 lut

/-- Model of the BitsStored extraction in `simple_pixel_data_lut_with`. -/
def bitsStoredOf (obj : DicomObject) : Except Failure ℕ :=
  match obj.bitsStored with
  | none => .error (.err "Could not fetch BitsStored")
  | some e =>
    match e.asInt with
    | some v => .ok v
    | none => .error (.err "BitsStored is not a number")

/-- Model of `simple_pixel_data_lut_with`: allocate a zero-filled table of
`1 << bits_stored` entries and populate it with `update_pixel_data_lut_with`. -/
def simple_pixel_data_lut_with (fexp : ℚ → ℚ) (obj : DicomObject)
    (window_level : WindowLevel) : Except Failure (List ℕ) :=
  match bitsStoredOf obj with
  | .error e => .error e
  | .ok bits_stored =>
    match update_pixel_data_lut_with fexp (List.replicate (1 <<< bits_stored) 0)
        obj window_level with
    | (.ok _, lut) => .ok lut
    | (.error e, _) => .error e

/-- Model of `simple_pixel_data_lut`: extract the window level from the object
and build the LUT with it; an object without window levels is an error. -/
def simple_pixel_data_lut (fexp : ℚ → ℚ) (obj : DicomObject) :
    Except Failure (List ℕ) :=
  match window_level_of obj with
  | .error e => .error e
  | .ok none => .error (.err "The given image does not provide window levels :(")
  | .ok (some window_level) => simple_pixel_data_lut_with fexp obj window_level

/-- Enum `Monochrome` from the source. -/
inductive Monochrome where
  | monochrome1
  | monochrome2
deriving Repr, DecidableEq

/-- Model of the per-pixel inversion: Monochrome1 inverts the display byte
(`0xFF - v`, on u8 values), Monochrome2 passes it through. -/
def monoPixel (monochrome : Monochrome) (v : ℕ) : ℕ :=
  if monochrome = .monochrome1 then 255 - v else v

/-- Model of `Vec::resize(n, v)`: truncate to `n` elements or extend with
copies of `v`. -/
def resizeVec (l : List ℕ) (n : ℕ) (v : ℕ) : List ℕ :=
  if n ≤ l.length then l.take n else l ++ List.replicate (n - l.length) v

/-- Model of the slice indexing `lut[x as usize]`: an out-of-range index is a
panic, not a returned error. -/
def lutIndex (lut : List ℕ) (x : ℕ) : Except Failure ℕ :=
  match lut[x]? with
  | some v => .ok v
  | none => .error (.panicked "index out of bounds")

/-- Model of the BitsAllocated extraction in
`convert_monochrome_to_y_samples`. -/
def bitsAllocatedOf (obj : DicomObject) : Except Failure ℕ :=
  match obj.bitsAllocated with
  | none => .error (.err "Could not fetch BitsAllocated")
  | some e =>
    match e.asInt with
    | some v => .ok v
    | none => .error (.err "BitsAllocated is not a number")

/-- Model of the 8-bit sample read in `convert_monochrome_to_y_samples`:
fetch PixelData, reject encapsulated pixel sequences, read with `to_bytes`. -/
def monoPixelBytesOf (obj : DicomObject) : Except Failure (List ℕ) :=
  match obj.pixelData with
  | none => .error (.err "Could not fetch PixelData")
  | some pd =>
    if pd.isPixelSequence then
      .error (.err "Encapsulated pixel data encoding is not supported at the moment, sorry. :(")
    else
      match pd.asBytes with
      | some samples => .ok samples
      | none => .error (.err "Could not read PixelData as a sequence of 8-bit integers")

/-- Model of the 16-bit sample read in `convert_monochrome_to_y_samples`:
fetch PixelData, reject encapsulated pixel sequences, read with
`uint16_slice` falling back to `to_multi_int::<u16>`. -/
def monoPixelU16Of (obj : DicomObject) : Except Failure (List ℕ) :=
  match obj.pixelData with
  | none => .error (.err "Could not fetch PixelData")
  | some pd =>
    if pd.isPixelSequence then
      .error (.err "Encapsulated pixel data encoding is not supported at the moment, sorry. :(")
    else
      match pd.asU16 with
      | some samples => .ok samples
      | none => .error (.err "Could not read PixelData as a sequence of 16-bit integers")

/-- Model of the write loop shared by the 8-bit and 16-bit branches of
`convert_monochrome_to_y_samples`: the samples are zipped with the 4-byte
chunks of the output buffer (the zip stops at the shorter side, as in Rust);
each pixel writes `(c, c, c, 255)` where `c` is the inverted LUT value (the
two branches write the four bytes of a chunk in different orders, with the
same final contents). An out-of-range LUT index, or a trailing chunk shorter
than 4 bytes, is a panic that keeps the writes made so far. -/
def writeMonoLoop (monochrome : Monochrome) (lut : List ℕ) :
    List ℕ → List ℕ → Except Failure Unit × List ℕ
  | _, [] => (.ok (), [])
  | [], buf => (.ok (), buf)
  | s :: srest, b0 :: b1 :: b2 :: b3 :: brest =>
    match lutIndex lut s with
    | .error e => (.error e, b0 :: b1 :: b2 :: b3 :: brest)
    | .ok v =>
      let c := monoPixel monochrome v
      let r := writeMonoLoop monochrome lut srest brest
      (r.1, c :: c :: c :: 255 :: r.2)
  | _ :: _, buf => (.error (.panicked "index out of bounds"), buf)

/-- Model of the buffer sizing and write shared by the two branches of
`convert_monochrome_to_y_samples`: resize the output buffer to
`samples.len() * 4` (filling new bytes with 255) exactly when its length
differs, then run the write loop. -/
def monoWrite (y_samples : List ℕ) (samples : List ℕ) (lut : List ℕ)
    (monochrome : Monochrome) : Except Failure Unit × List ℕ :=
  let y1 := if samples.length * 4 ≠ y_samples.length then
      resizeVec y_samples (samples.length * 4) 255
    else
      y_samples
  writeMonoLoop monochrome lut samples y1

/-- Model of `convert_monochrome_to_y_samples`: dispatch on BitsAllocated
(8 or 16, anything else a returned error), read the samples, resize the
output buffer if needed and write every pixel through the LUT. -/
def convert_monochrome_to_y_samples (y_samples : List ℕ) (obj : DicomObject)
    (monochrome : Monochrome) (lut : List ℕ) : Except Failure Unit × List ℕ :=
  match bitsAllocatedOf obj with
  | .error e => (.error e, y_samples)
  | .ok bits_allocated =>
    if bits_allocated = 8 then
      match monoPixelBytesOf obj with
      | .error e => (.error e, y_samples)
      | .ok samples => monoWrite y_samples samples lut monochrome
    else if bits_allocated = 16 then
      match monoPixelU16Of obj with
      | .error e => (.error e, y_samples)
      | .ok samples => monoWrite y_samples samples lut monochrome
    else
      (.error (.err "Unsupported BitsAllocated :("), y_samples)

/-- Model of `web_sys::ImageData`: a packed RGBA byte buffer with its pixel
dimensions. -/
structure ImageData where
  data : List ℕ
  width : ℕ
  height : ℕ
deriving Repr, DecidableEq

/-- Model of the browser `ImageData` constructor
(`ImageData::new_with_u8_clamped_array_and_sh`, an external collaborator):
constructing an ImageData fails unless the buffer holds exactly
`4 * width * height` bytes. -/
def imageDataOf (data : List ℕ) (width height : ℕ) : Except Failure ImageData :=
  if data.length = 4 * width * height then
    .ok { data := data, width := width, height := height }
  else
    .error (.err "ImageData construction failed")

/-- Model of the RGB interleaving in `convert_rgb_to_imagedata`:
`samples.chunks(3)` with each chunk turned into `[r, g, b, 255]`; a trailing
chunk shorter than 3 bytes makes the `try_from(...).unwrap()` panic. -/
def rgbTriples : List ℕ → Except Failure (List ℕ)
  | [] => .ok []
  | r :: g :: b :: rest =>
    match rgbTriples rest with
    | .error e => .error e
    | .ok t => .ok (r :: g :: b :: 255 :: t)
  | _ => .error (.panicked "could not convert chunk to 3-byte array")

/-- Model of the PixelData byte read in `convert_rgb_to_imagedata`
(no pixel-sequence check on this path; `to_bytes` on an encapsulated element
fails on its own). -/
def rgbBytesOf (obj : DicomObject) : Except Failure (List ℕ) :=
  match obj.pixelData with
  | none => .error (.err "Could not fetch PixelData")
  | some pd =>
    match pd.asBytes with
    | some samples => .ok samples
    | none => .error (.err "Could not read the bytes of PixelData")

/-- Model of `convert_rgb_to_imagedata`: require SamplesPerPixel = 3, read the
raw bytes, interleave `(r, g, b, 255)` per 3-byte chunk and build the
ImageData. The LUT and the window level are never consulted. -/
def convert_rgb_to_imagedata (obj : DicomObject) (width height : ℕ) :
    Except Failure ImageData :=
  match obj.samplesPerPixel with
  | none => .error (.err "Could not fetch SamplesPerPixel")
  | some e =>
    match e.asInt with
    | none => .error (.err "SamplesPerPixel is not an integer")
    | some samples_per_pixel =>
      if samples_per_pixel ≠ 3 then
        .error (.err "Expected 3 samples per pixel")
      else
        match rgbBytesOf obj with
        | .error e => .error e
        | .ok samples =>
          match rgbTriples samples with
          | .error e => .error e
          | .ok data => imageDataOf data width height

/-- Model of the PhotometricInterpretation extraction in `obj_to_imagedata`
(required attribute, read with `to_str`). -/
def photometricInterpretationOf (obj : DicomObject) : Except Failure String :=
  match obj.photometricInterpretation with
  | none => .error (.err "Could not fetch PhotometricInterpretation")
  | some e =>
    match e.asStr with
    | some s => .ok s
    | none => .error (.err "Could not read PhotometricInterpretation as a string")

/-- Model of the Columns extraction in `obj_to_imagedata`
(required attribute, read with `to_int::<u32>`). -/
def columnsOf (obj : DicomObject) : Except Failure ℕ :=
  match obj.columns with
  | none => .error (.err "Could not fetch Columns")
  | some e =>
    match e.asInt with
    | some v => .ok v
    | none => .error (.err "Columns is not an integer")

/-- Model of the Rows extraction in `obj_to_imagedata`
(required attribute, read with `to_int::<u32>`). -/
def rowsOf (obj : DicomObject) : Except Failure ℕ :=
  match obj.rows with
  | none => .error (.err "Could not fetch Rows")
  | some e =>
    match e.asInt with
    | some v => .ok v
    | none => .error (.err "Rows is not an integer")

/-- Model of the MONOCHROME1/MONOCHROME2 branches of `obj_to_imagedata`:
when no LUT is cached, build one with `simple_pixel_data_lut` (an error
propagates with the state untouched), then transcode the samples into the
output buffer. Returns the outcome together with the buffer and the cached
LUT after the call. -/
def monochromeBranch (fexp : ℚ → ℚ) (obj : DicomObject) (y_samples : List ℕ)
    (lut : Option (List ℕ)) (monochrome : Monochrome) :
    Except Failure Unit × List ℕ × Option (List ℕ) :=
  match lut with
  | none =>
    match simple_pixel_data_lut fexp obj with
    | .error e => (.error e, y_samples, none)
    | .ok l =>
      let r := convert_monochrome_to_y_samples y_samples obj monochrome l
      (r.1, r.2, some l)
  | some l =>
    let r := convert_monochrome_to_y_samples y_samples obj monochrome l
    (r.1, r.2, some l)

/-- Model of `obj_to_imagedata`: read PhotometricInterpretation, Columns and
Rows, then dispatch: the monochrome branches transcode into the reusable
buffer (building the LUT lazily) and wrap it in an ImageData; the RGB branch
returns `convert_rgb_to_imagedata` directly, leaving the buffer and the LUT
untouched; any other interpretation is an error. -/
def obj_to_imagedata (fexp : ℚ → ℚ) (obj : DicomObject) (y_samples : List ℕ)
    (lut : Option (List ℕ)) :
    Except Failure ImageData × List ℕ × Option (List ℕ) :=
  match photometricInterpretationOf obj with
  | .error e => (.error e, y_samples, lut)
  | .ok photometric_interpretation =>
    match columnsOf obj with
    | .error e => (.error e, y_samples, lut)
    | .ok width =>
      match rowsOf obj with
      | .error e => (.error e, y_samples, lut)
      | .ok height =>
        if photometric_interpretation = "MONOCHROME1" then
          let r := monochromeBranch fexp obj y_samples lut .monochrome1
          match r.1 with
          | .error e => (.error e, r.2)
          | .ok _ => (imageDataOf r.2.1 width height, r.2)
        else if photometric_interpretation = "MONOCHROME2" then
          let r := monochromeBranch fexp obj y_samples lut .monochrome2
          match r.1 with
          | .error e => (.error e, r.2)
          | .ok _ => (imageDataOf r.2.1 width height, r.2)
        else if photometric_interpretation = "RGB" then
          (convert_rgb_to_imagedata obj width height, y_samples, lut)
        else
          (.error (.err "Unsupported photometric interpretation, sorry. :("),
            y_samples, lut)

/-- The session-owned part of the application state (struct `State` in
src/lib.rs), without the canvas handles. -/
structure SessionState where
  dicom_obj : Option DicomObject
  lut : Option (List ℕ)
  window_level : Option WindowLevel
  y_samples : List ℕ
deriving Repr, DecidableEq

/-- Model of `change_window_level` (src/lib.rs): with no loaded object or no
window level the call is ignored; otherwise the window level is replaced
wholesale by `(max (width + rel_ww) 1, center + rel_wc)` (the Rust
`(window_level.width + rel_ww).max(1.)`), and when a LUT is cached it is
refreshed in place with the new window level (on a refresh error the function
returns early with the new window level kept and the LUT as the failed update
left it). Canvas rendering is outside the model. -/
def change_window_level (fexp : ℚ → ℚ) (state : SessionState)
    (rel_ww rel_wc : ℚ) : SessionState :=
  match state.dicom_obj with
  | none => state
  | some obj =>
    match state.window_level with
    | none => state
    | some window_level =>
      let new_ww := max (window_level.width + rel_ww) 1
      let new_wc := window_level.center + rel_wc
      let new_wl : WindowLevel := { width := new_ww, center := new_wc }
      let state1 := { state with window_level := some new_wl }
      match state.lut with
      | none => state1
      | some lut =>
        let r := update_pixel_data_lut_with fexp lut obj new_wl
        { state1 with lut := some r.2 }

/-- Every byte produced by the saturating cast is at most 255. -/
lemma f64AsU8_le (x : ℚ) : f64AsU8 x ≤ 255 := by
  unfold f64AsU8
  rcases le_total (255 : ℤ) ⌊x⌋ with h | h
  · rw [min_eq_left h]
    rfl
  · rw [min_eq_right h]
    omega

/-- The LUT write loop preserves the buffer length. -/
lemma lutLoop_snd_length (f : ℕ → Except Failure ℚ) (l : List ℕ) :
    ∀ k, (lutLoop f k l).2.length = l.length := by
  induction l with
  | nil => intro k; rfl
  | cons y rest ih =>
    intro k
    unfold lutLoop
    cases hf : f k with
    | error e => rfl
    | ok x => simpa using ih (k + 1)

/-- When the per-entry computation always succeeds, the LUT write loop
succeeds. -/
lemma lutLoop_fst_ok (f : ℕ → Except Failure ℚ) (l : List ℕ)
    (h : ∀ i, ∃ q, f i = .ok q) : ∀ k, (lutLoop f k l).1 = .ok () := by
  induction l with
  | nil => intro k; rfl
  | cons y rest ih =>
    intro k
    unfold lutLoop
    obtain ⟨q, hq⟩ := h k
    rw [hq]
    simpa using ih (k + 1)

/-- When the per-entry computation always fails, the LUT write loop leaves
the buffer untouched (the failure hits the first entry, before any write). -/
lemma lutLoop_snd_of_error (f : ℕ → Except Failure ℚ) (l : List ℕ)
    (h : ∀ i, ∃ e, f i = .error e) : ∀ k, (lutLoop f k l).2 = l := by
  cases l with
  | nil => intro k; rfl
  | cons y rest =>
    intro k
    unfold lutLoop
    obtain ⟨e, he⟩ := h k
    rw [he]

/-- When the LUT write loop succeeds, entry `j` holds the cast value of the
per-entry computation at index `k + j`. -/
lemma lutLoop_get (f : ℕ → Except Failure ℚ) (l : List ℕ) :
    ∀ k, (lutLoop f k l).1 = .ok () →
      ∀ j, j < l.length → ∃ q, f (k + j) = .ok q ∧
        (lutLoop f k l).2[j]? = some (f64AsU8 q) := by
  induction l with
  | nil =>
    intro k _ j hj
    simp at hj
  | cons y rest ih =>
    intro k hok j hj
    unfold lutLoop at hok ⊢
    cases hf : f k with
    | error e => rw [hf] at hok; simp at hok
    | ok x =>
      rw [hf] at hok
      simp only at hok
      cases j with
      | zero => exact ⟨x, by simpa using hf, by simp⟩
      | succ j' =>
        obtain ⟨q, hq1, hq2⟩ := ih (k + 1) (by simpa using hok) j' (by
          simp at hj; omega)
        refine ⟨q, ?_, ?_⟩
        · rw [show k + (j' + 1) = k + 1 + j' by omega]
          exact hq1
        · simpa using hq2

/-- Specification helper: the expected contents of the RGBA output buffer
after a successful monochrome transcode — one `(c, c, c, 255)` quadruple per
sample, `c` being the inverted LUT value of the sample. -/
def monoOutputSpec (monochrome : Monochrome) (lut : List ℕ) : List ℕ → List ℕ
  | [] => []
  | s :: rest =>
    let c := monoPixel monochrome (lut.getD s 0)
    c :: c :: c :: 255 :: monoOutputSpec monochrome lut rest

lemma monoOutputSpec_length (monochrome : Monochrome) (lut : List ℕ) :
    ∀ samples, (monoOutputSpec monochrome lut samples).length =
      4 * samples.length := by
  intro samples
  induction samples with
  | nil => rfl
  | cons s rest ih =>
    unfold monoOutputSpec
    simp only [List.length_cons, ih]
    omega

lemma resizeVec_length (l : List ℕ) (n v : ℕ) : (resizeVec l n v).length = n := by
  unfold resizeVec
  split
  · simp
    omega
  · simp
    omega

/-- On in-range samples and a buffer of exactly four bytes per sample, the
monochrome write loop succeeds and produces the expected RGBA quadruples. -/
lemma writeMonoLoop_ok (monochrome : Monochrome) (lut : List ℕ) :
    ∀ (samples buf : List ℕ), buf.length = 4 * samples.length →
      (∀ s ∈ samples, s < lut.length) →
      writeMonoLoop monochrome lut samples buf =
        (.ok (), monoOutputSpec monochrome lut samples) := by
  intro samples
  induction samples with
  | nil =>
    intro buf hb _
    have hb0 : buf.length = 0 := by simpa using hb
    have : buf = [] := List.eq_nil_of_length_eq_zero hb0
    subst this
    rfl
  | cons s rest ih =>
    intro buf hb hin
    rcases buf with _ | ⟨b0, _ | ⟨b1, _ | ⟨b2, _ | ⟨b3, brest⟩⟩⟩⟩ <;>
      simp only [List.length_cons, List.length_nil] at hb <;> try omega
    have hs : s < lut.length := hin s (by simp)
    have hidx : lutIndex lut s = .ok (lut.getD s 0) := by
      unfold lutIndex
      rw [List.getElem?_eq_getElem hs]
      rw [List.getD_eq_getElem?_getD, List.getElem?_eq_getElem hs]
      rfl
    unfold writeMonoLoop
    rw [hidx]
    have := ih brest (by omega) (fun x hx => hin x (by simp [hx]))
    rw [this]
    rfl

/-- When some sample is outside the LUT domain and the buffer has four bytes
per sample, the monochrome write loop panics with an index-out-of-bounds. -/
lemma writeMonoLoop_oob (monochrome : Monochrome) (lut : List ℕ) :
    ∀ (samples buf : List ℕ), buf.length = 4 * samples.length →
      (∃ s ∈ samples, lut.length ≤ s) →
      (writeMonoLoop monochrome lut samples buf).1 =
        .error (.panicked "index out of bounds") := by
  intro samples
  induction samples with
  | nil =>
    intro buf _ hoob
    simp at hoob
  | cons s rest ih =>
    intro buf hb hoob
    rcases buf with _ | ⟨b0, _ | ⟨b1, _ | ⟨b2, _ | ⟨b3, brest⟩⟩⟩⟩ <;>
      simp only [List.length_cons, List.length_nil] at hb <;> try omega
    by_cases hs : s < lut.length
    · have hidx : lutIndex lut s = .ok (lut.getD s 0) := by
        unfold lutIndex
        rw [List.getElem?_eq_getElem hs]
        rw [List.getD_eq_getElem?_getD, List.getElem?_eq_getElem hs]
        rfl
      unfold writeMonoLoop
      rw [hidx]
      have hrest : ∃ x ∈ rest, lut.length ≤ x := by
        rcases hoob with ⟨x, hx, hxl⟩
        rcases List.mem_cons.mp hx with rfl | hx'
        · omega
        · exact ⟨x, hx', hxl⟩
      simpa using ih brest (by omega) hrest
    · have hidx : lutIndex lut s = .error (.panicked "index out of bounds") := by
        unfold lutIndex
        rw [List.getElem?_eq_none (by omega)]
      unfold writeMonoLoop
      rw [hidx]

/-- The buffer passed to the write loop (after the conditional resize) always
has exactly four bytes per sample. -/
lemma monoWrite_buf_length (y_samples samples : List ℕ) :
    (if samples.length * 4 ≠ y_samples.length then
        resizeVec y_samples (samples.length * 4) 255
      else y_samples).length = 4 * samples.length := by
  split
  · rw [resizeVec_length]
    omega
  · omega

/-- A successful monochrome write: resize then fully repopulate. -/
lemma monoWrite_ok (y_samples samples lut : List ℕ) (monochrome : Monochrome)
    (hin : ∀ s ∈ samples, s < lut.length) :
    monoWrite y_samples samples lut monochrome =
      (.ok (), monoOutputSpec monochrome lut samples) := by
  unfold monoWrite
  exact writeMonoLoop_ok monochrome lut samples _
    (monoWrite_buf_length y_samples samples) hin

/-- An out-of-range sample makes the monochrome write panic. -/
lemma monoWrite_oob (y_samples samples lut : List ℕ) (monochrome : Monochrome)
    (hoob : ∃ s ∈ samples, lut.length ≤ s) :
    (monoWrite y_samples samples lut monochrome).1 =
      .error (.panicked "index out of bounds") := by
  unfold monoWrite
  exact writeMonoLoop_oob monochrome lut samples _
    (monoWrite_buf_length y_samples samples) hoob

lemma getD_cons4 (a b c d : ℕ) (t : List ℕ) (n : ℕ) :
    (a :: b :: c :: d :: t).getD (n + 4) 0 = t.getD n 0 := by
  simp [show n + 4 = n + 1 + 1 + 1 + 1 by omega, List.getD_cons_succ]

/-- The four bytes of pixel `p` in the expected monochrome output. -/
lemma monoOutputSpec_getD (monochrome : Monochrome) (lut : List ℕ) :
    ∀ (samples : List ℕ) (p : ℕ), p < samples.length →
      (monoOutputSpec monochrome lut samples).getD (4 * p) 0 =
        monoPixel monochrome (lut.getD (samples.getD p 0) 0) ∧
      (monoOutputSpec monochrome lut samples).getD (4 * p + 1) 0 =
        monoPixel monochrome (lut.getD (samples.getD p 0) 0) ∧
      (monoOutputSpec monochrome lut samples).getD (4 * p + 2) 0 =
        monoPixel monochrome (lut.getD (samples.getD p 0) 0) ∧
      (monoOutputSpec monochrome lut samples).getD (4 * p + 3) 0 = 255 := by
  intro samples
  induction samples with
  | nil => intro p hp; simp at hp
  | cons s rest ih =>
    intro p hp
    cases p with
    | zero => simp [monoOutputSpec]
    | succ p' =>
      have h0 : 4 * (p' + 1) = 4 * p' + 4 := by omega
      have h1 : 4 * (p' + 1) + 1 = (4 * p' + 1) + 4 := by omega
      have h2 : 4 * (p' + 1) + 2 = (4 * p' + 2) + 4 := by omega
      have h3 : 4 * (p' + 1) + 3 = (4 * p' + 3) + 4 := by omega
      have hrec := ih p' (by simp at hp; omega)
      unfold monoOutputSpec
      simp only [h0, h1, h2, h3, getD_cons4, List.getD_cons_succ]
      exact hrec

lemma getElemQ_cons4 (a b c d : ℕ) (t : List ℕ) (n : ℕ) :
    (a :: b :: c :: d :: t)[n + 4]? = t[n]? := by
  simp [show n + 4 = n + 1 + 1 + 1 + 1 by omega, List.getElem?_cons_succ]

lemma getElemQ_cons3 (a b c : ℕ) (t : List ℕ) (n : ℕ) :
    (a :: b :: c :: t)[n + 3]? = t[n]? := by
  simp [show n + 3 = n + 1 + 1 + 1 by omega, List.getElem?_cons_succ]

/-- Pixel `p` of a successfully interleaved RGB buffer reproduces the three
raw samples of the pixel and an alpha byte of 255. -/
lemma rgbTriples_pixels : ∀ (samples data : List ℕ),
    rgbTriples samples = .ok data → ∀ p : ℕ,
      data[4 * p]? = samples[3 * p]? ∧
      data[4 * p + 1]? = samples[3 * p + 1]? ∧
      data[4 * p + 2]? = samples[3 * p + 2]? ∧
      (3 * p + 2 < samples.length → data[4 * p + 3]? = some 255)
  | [], data, h, p => by
    have hd : data = [] := by
      simp [rgbTriples] at h
      exact h
    subst hd
    refine ⟨by simp, by simp, by simp, by intro hc; simp at hc⟩
  | [r], data, h, p => by simp [rgbTriples] at h
  | [r, g], data, h, p => by simp [rgbTriples] at h
  | r :: g :: b :: rest, data, h, p => by
    cases hrest : rgbTriples rest with
    | error e => simp [rgbTriples, hrest] at h
    | ok t =>
      simp only [rgbTriples, hrest] at h
      have hd : r :: g :: b :: 255 :: t = data := by simpa using h
      subst hd
      cases p with
      | zero =>
        refine ⟨by simp, by simp, by simp, by intro hc; simp⟩
      | succ p' =>
        have ih := rgbTriples_pixels rest t hrest p'
        have h0 : 4 * (p' + 1) = 4 * p' + 4 := by omega
        have h1 : 4 * (p' + 1) + 1 = (4 * p' + 1) + 4 := by omega
        have h2 : 4 * (p' + 1) + 2 = (4 * p' + 2) + 4 := by omega
        have h3 : 4 * (p' + 1) + 3 = (4 * p' + 3) + 4 := by omega
        have g0 : 3 * (p' + 1) = 3 * p' + 3 := by omega
        have g1 : 3 * (p' + 1) + 1 = (3 * p' + 1) + 3 := by omega
        have g2 : 3 * (p' + 1) + 2 = (3 * p' + 2) + 3 := by omega
        rw [h1, h2, h3, h0, g1, g2, g0, getElemQ_cons4, getElemQ_cons4,
          getElemQ_cons4, getElemQ_cons4, getElemQ_cons3, getElemQ_cons3,
          getElemQ_cons3]
        refine ⟨ih.1, ih.2.1, ih.2.2.1, ?_⟩
        intro hc
        exact ih.2.2.2 (by simp at hc; omega)

/-- Every returned error of the LUT update leaves the table untouched: all
`whatever!` errors precede the write loop, and the only in-loop failure (the
SIGMOID width assert) panics at entry 0 before any write. -/
lemma update_error_spec (fexp : ℚ → ℚ) (lut : List ℕ) (obj : DicomObject)
    (wl : WindowLevel) (e : Failure)
    (herr : (update_pixel_data_lut_with fexp lut obj wl).1 = .error e) :
    (update_pixel_data_lut_with fexp lut obj wl).2 = lut := by
  cases hs : rescaleSlopeOf obj with
  | error e0 =>
    unfold update_pixel_data_lut_with
    simp only [hs]
  | ok slope =>
    cases hi : rescaleInterceptOf obj with
    | error e0 =>
      unfold update_pixel_data_lut_with
      simp only [hs, hi]
    | ok intercept =>
      cases hv : voiLutFunctionOf obj with
      | error e0 =>
        unfold update_pixel_data_lut_with
        simp only [hs, hi, hv]
      | ok voi =>
        by_cases hvoi : voi ≠ "LINEAR" ∧ voi ≠ "LINEAR_EXACT" ∧ voi ≠ "SIGMOID"
        · unfold update_pixel_data_lut_with
          simp only [hs, hi, hv]
          rw [if_pos hvoi]
        · have hupd : update_pixel_data_lut_with fexp lut obj wl =
              lutLoop (fun i =>
                apply_window_level fexp ((i : ℚ) * slope + intercept) voi wl)
                0 lut := by
            unfold update_pixel_data_lut_with
            simp only [hs, hi, hv]
            rw [if_neg hvoi]
          rw [hupd] at herr ⊢
          push_neg at hvoi
          by_cases hl : voi = "LINEAR"
          · subst hl
            have hok := lutLoop_fst_ok
              (fun i => apply_window_level fexp ((i : ℚ) * slope + intercept)
                "LINEAR" wl) lut
              (fun i => ⟨window_level_linear ((i : ℚ) * slope + intercept)
                wl.width wl.center, by simp [apply_window_level]⟩) 0
            rw [hok] at herr
            simp at herr
          · by_cases hle : voi = "LINEAR_EXACT"
            · subst hle
              have hok := lutLoop_fst_ok
                (fun i => apply_window_level fexp ((i : ℚ) * slope + intercept)
                  "LINEAR_EXACT" wl) lut
                (fun i => ⟨window_level_linear_exact ((i : ℚ) * slope + intercept)
                  wl.width wl.center, by simp [apply_window_level]⟩) 0
              rw [hok] at herr
              simp at herr
            · have hsg : voi = "SIGMOID" := by tauto
              subst hsg
              by_cases hww : wl.width < 1
              · exact lutLoop_snd_of_error _ lut
                  (fun i => ⟨Failure.panicked "assertion failed: ww >= 1.",
                    by simp [apply_window_level, hww]⟩) 0
              · have hok := lutLoop_fst_ok
                  (fun i => apply_window_level fexp ((i : ℚ) * slope + intercept)
                    "SIGMOID" wl) lut
                  (fun i => ⟨window_level_sigmoid fexp ((i : ℚ) * slope + intercept)
                    wl.width wl.center, by simp [apply_window_level, hww]⟩) 0
                rw [hok] at herr
                simp at herr

/-- A successful LUT update repopulates every entry with the cast windowed
value of the rescaled index. -/
lemma update_ok_spec (fexp : ℚ → ℚ) (lut : List ℕ) (obj : DicomObject)
    (wl : WindowLevel)
    (hok : (update_pixel_data_lut_with fexp lut obj wl).1 = .ok ()) :
    (update_pixel_data_lut_with fexp lut obj wl).2.length = lut.length ∧
    ∃ slope intercept voi,
      rescaleSlopeOf obj = .ok slope ∧
      rescaleInterceptOf obj = .ok intercept ∧
      voiLutFunctionOf obj = .ok voi ∧
      ∀ i, i < lut.length → ∃ q,
        apply_window_level fexp ((i : ℚ) * slope + intercept) voi wl = .ok q ∧
        (update_pixel_data_lut_with fexp lut obj wl).2[i]? = some (f64AsU8 q) := by
  cases hs : rescaleSlopeOf obj with
  | error e0 =>
    unfold update_pixel_data_lut_with at hok
    simp only [hs] at hok
    simp at hok
  | ok slope =>
    cases hi : rescaleInterceptOf obj with
    | error e0 =>
      unfold update_pixel_data_lut_with at hok
      simp only [hs, hi] at hok
      simp at hok
    | ok intercept =>
      cases hv : voiLutFunctionOf obj with
      | error e0 =>
        unfold update_pixel_data_lut_with at hok
        simp only [hs, hi, hv] at hok
        simp at hok
      | ok voi =>
        by_cases hvoi : voi ≠ "LINEAR" ∧ voi ≠ "LINEAR_EXACT" ∧ voi ≠ "SIGMOID"
        · unfold update_pixel_data_lut_with at hok
          simp only [hs, hi, hv] at hok
          rw [if_pos hvoi] at hok
          simp at hok
        · have hupd : update_pixel_data_lut_with fexp lut obj wl =
              lutLoop (fun i =>
                apply_window_level fexp ((i : ℚ) * slope + intercept) voi wl)
                0 lut := by
            unfold update_pixel_data_lut_with
            simp only [hs, hi, hv]
            rw [if_neg hvoi]
          rw [hupd] at hok ⊢
          refine ⟨lutLoop_snd_length _ lut 0, slope, intercept, voi, rfl, rfl, rfl, ?_⟩
          intro i hi2
          obtain ⟨q, hq1, hq2⟩ := lutLoop_get _ lut 0 hok i hi2
          refine ⟨q, ?_, hq2⟩
          simpa using hq1

/-- C1: for every input value `x` and every window level with `width ≥ 1`, the
linear transfer function returns 0 when `x ≤ center − (width−1)/2`, returns
255 when (that fails and) `x > center − 0.5 + (width−1)/2`, and otherwise
returns `((x − (center − 0.5)) / (width − 1) + 0.5) * 255`; in particular it
returns 0 at `x = center − width/2 − 1` and 255 at `x = center + width`. -/
theorem c1_window_level_linear_spec (x ww wc : ℚ) (hw : 1 ≤ ww) :
    (x ≤ wc - (ww - 1) / 2 → window_level_linear x ww wc = 0) ∧
    (¬ x ≤ wc - (ww - 1) / 2 → x > wc - 1/2 + (ww - 1) / 2 →
      window_level_linear x ww wc = 255) ∧
    (¬ x ≤ wc - (ww - 1) / 2 → ¬ x > wc - 1/2 + (ww - 1) / 2 →
      window_level_linear x ww wc =
        ((x - (wc - 1/2)) / (ww - 1) + 1/2) * 255) ∧
    window_level_linear (wc - ww / 2 - 1) ww wc = 0 ∧
    window_level_linear (wc + ww) ww wc = 255 := by
  refine ⟨?_, ?_, ?_, ?_, ?_⟩
  · intro h
    simp only [window_level_linear]
    rw [if_pos h]
  · intro h1 h2
    simp only [window_level_linear]
    rw [if_neg h1, if_pos h2]
  · intro h1 h2
    simp only [window_level_linear]
    rw [if_neg h1, if_neg h2]
  · simp only [window_level_linear]
    rw [if_pos (by linarith)]
  · simp only [window_level_linear]
    rw [if_neg (not_le.mpr (by linarith)), if_pos (by
      show wc - 1/2 + (ww - 1) / 2 < wc + ww
      linarith)]

/-- C1 witness: the two boundary evaluations at `width = 2`, `center = 1`. -/
theorem c1_window_level_linear_spec_witness :
    window_level_linear (1 - 2 / 2 - 1) 2 1 = 0 ∧
    window_level_linear (1 + 2) 2 1 = 255 :=
  ⟨(c1_window_level_linear_spec 0 2 1 (by norm_num)).2.2.2.1,
   (c1_window_level_linear_spec 0 2 1 (by norm_num)).2.2.2.2⟩

/-- C8: the window-level extractor returns the numeric pair when both
attributes are present and numeric, returns no windowing (not an error) when
either attribute is absent, and returns a decode error when both are present
but either is not readable as a number. (The embedding is a pure function of
the object, so the call cannot have side effects on it.) -/
theorem c8_window_level_of_contract (obj : DicomObject) :
    (∀ wwe wce w c, obj.windowWidth = some wwe → obj.windowCenter = some wce →
      wwe.asFloat = some w → wce.asFloat = some c →
      window_level_of obj = .ok (some { width := w, center := c })) ∧
    ((obj.windowWidth = none ∨ obj.windowCenter = none) →
      window_level_of obj = .ok none) ∧
    (∀ wwe wce, obj.windowWidth = some wwe → obj.windowCenter = some wce →
      (wwe.asFloat = none ∨ wce.asFloat = none) →
      ∃ msg, window_level_of obj = .error (.err msg)) := by
  refine ⟨?_, ?_, ?_⟩
  · intro wwe wce w c h1 h2 h3 h4
    simp [window_level_of, h1, h2, h3, h4]
  · intro h
    rcases h with h | h
    · simp [window_level_of, h]
    · cases hww : obj.windowWidth with
      | none => simp [window_level_of, hww]
      | some wwe => simp [window_level_of, hww, h]
  · intro wwe wce h1 h2 h3
    rcases h3 with h3 | h3
    · exact ⟨"Could not read WindowWidth as a number",
        by simp [window_level_of, h1, h2, h3]⟩
    · cases hf : wwe.asFloat with
      | none => exact ⟨"Could not read WindowWidth as a number",
          by simp [window_level_of, h1, h2, hf]⟩
      | some w => exact ⟨"Could not read WindowCenter as a number",
          by simp [window_level_of, h1, h2, hf, h3]⟩

/-- Test object for the C8 witness: both windowing attributes present and
numeric. -/
def c8Obj : DicomObject :=
  { windowWidth := some { asFloat := some 2, asStr := none, asInt := none },
    windowCenter := some { asFloat := some 3, asStr := none, asInt := none },
    rescaleSlope := none, rescaleIntercept := none, voiLutFunction := none,
    bitsStored := none, bitsAllocated := none,
    photometricInterpretation := none, rows := none, columns := none,
    samplesPerPixel := none, pixelData := none }

/-- C8 witness: extraction on a concrete object with numeric attributes. -/
theorem c8_window_level_of_contract_witness :
    window_level_of c8Obj = .ok (some { width := 2, center := 3 }) :=
  (c8_window_level_of_contract c8Obj).1
    { asFloat := some 2, asStr := none, asInt := none }
    { asFloat := some 3, asStr := none, asInt := none }
    2 3 rfl rfl rfl rfl

/-- Test object for C7: a data set carrying WindowWidth 0.5 (below 1) and
WindowCenter 100. -/
def c7Obj : DicomObject :=
  { windowWidth := some { asFloat := some (1/2), asStr := none, asInt := none },
    windowCenter := some { asFloat := some 100, asStr := none, asInt := none },
    rescaleSlope := none, rescaleIntercept := none, voiLutFunction := none,
    bitsStored := none, bitsAllocated := none,
    photometricInterpretation := none, rows := none, columns := none,
    samplesPerPixel := none, pixelData := none }

/-- C7 counterexample: extraction does not enforce `width ≥ 1` — on a data
set with WindowWidth 0.5 `window_level_of` returns a pair whose width is
below 1, so not every session window level satisfies the transfer-function
precondition. -/
theorem c7_extraction_counterexample :
    window_level_of c7Obj = .ok (some { width := 1/2, center := 100 }) ∧
    ¬ (1 ≤ ((1 : ℚ)/2)) := by
  refine ⟨rfl, by norm_num⟩

/-- C7 amended: every window-level adjustment replaces the pair wholesale and
clamps the new width to at least 1 (`max (width + rel_ww) 1`), so adjusted
window levels always satisfy `width ≥ 1`; extraction, however, returns the
attribute values unvalidated. -/
theorem c7_change_window_level_width_ge_one (fexp : ℚ → ℚ)
    (state : SessionState) (obj : DicomObject) (wl : WindowLevel)
    (rel_ww rel_wc : ℚ) (hobj : state.dicom_obj = some obj)
    (hwl : state.window_level = some wl) :
    (change_window_level fexp state rel_ww rel_wc).window_level =
      some { width := max (wl.width + rel_ww) 1,
             center := wl.center + rel_wc } ∧
    ∀ wl', (change_window_level fexp state rel_ww rel_wc).window_level =
      some wl' → 1 ≤ wl'.width := by
  have h1 : (change_window_level fexp state rel_ww rel_wc).window_level =
      some { width := max (wl.width + rel_ww) 1,
             center := wl.center + rel_wc } := by
    unfold change_window_level
    simp only [hobj, hwl]
    cases state.lut with
    | none => rfl
    | some lut => rfl
  refine ⟨h1, ?_⟩
  intro wl' h'
  rw [h1] at h'
  cases Option.some.inj h'
  exact le_max_right _ 1

/-- Session state for the C7 witness. -/
def c7State : SessionState :=
  { dicom_obj := some c7Obj, lut := none,
    window_level := some { width := 1/2, center := 100 }, y_samples := [] }

/-- C7 witness: a concrete adjustment starting from width 0.5 yields the
clamped width `max (0.5 + 0) 1 = 1`. -/
theorem c7_change_window_level_width_ge_one_witness :
    (change_window_level (fun _ => 0) c7State 0 0).window_level =
      some { width := max ((1:ℚ)/2 + 0) 1, center := (100:ℚ) + 0 } :=
  (c7_change_window_level_width_ge_one (fun _ => 0) c7State c7Obj
    { width := 1/2, center := 100 } 0 0 rfl rfl).1

/-- C10: when WindowWidth or WindowCenter is absent, `simple_pixel_data_lut`
fails instead of synthesizing a default window, and consequently rendering a
monochrome object with no cached LUT fails in `obj_to_imagedata`. -/
theorem c10_missing_windowing_fails (fexp : ℚ → ℚ) (obj : DicomObject)
    (y_samples : List ℕ)
    (hmiss : obj.windowWidth = none ∨ obj.windowCenter = none) :
    simple_pixel_data_lut fexp obj =
      .error (.err "The given image does not provide window levels :(") ∧
    (∀ pi, photometricInterpretationOf obj = .ok pi →
      (pi = "MONOCHROME1" ∨ pi = "MONOCHROME2") →
      ∀ w h, columnsOf obj = .ok w → rowsOf obj = .ok h →
      (obj_to_imagedata fexp obj y_samples none).1 =
        .error (.err "The given image does not provide window levels :(")) := by
  have hwl : window_level_of obj = .ok none := by
    rcases hmiss with h | h
    · simp [window_level_of, h]
    · cases hww : obj.windowWidth with
      | none => simp [window_level_of, hww]
      | some wwe => simp [window_level_of, hww, h]
  have hlut : simple_pixel_data_lut fexp obj =
      .error (.err "The given image does not provide window levels :(") := by
    simp [simple_pixel_data_lut, hwl]
  refine ⟨hlut, ?_⟩
  intro pi hpi hmono w h hw hh
  have hbranch : ∀ m, monochromeBranch fexp obj y_samples none m =
      (.error (.err "The given image does not provide window levels :("),
        y_samples, none) := by
    intro m
    simp [monochromeBranch, hlut]
  unfold obj_to_imagedata
  simp only [hpi, hw, hh]
  rcases hmono with rfl | rfl
  · simp [hbranch]
  · simp [hbranch]

/-- Test object for the C10 witness: a MONOCHROME2 object with no windowing
attributes. -/
def c10Obj : DicomObject :=
  { windowWidth := none, windowCenter := none, rescaleSlope := none,
    rescaleIntercept := none, voiLutFunction := none,
    bitsStored := some { asFloat := none, asStr := none, asInt := some 8 },
    bitsAllocated := some { asFloat := none, asStr := none, asInt := some 8 },
    photometricInterpretation :=
      some { asFloat := none, asStr := some "MONOCHROME2", asInt := none },
    rows := some { asFloat := none, asStr := none, asInt := some 1 },
    columns := some { asFloat := none, asStr := none, asInt := some 1 },
    samplesPerPixel := none,
    pixelData := some { isPixelSequence := false, asBytes := some [0], asU16 := none } }

/-- C10 witness: the LUT build and the full render both fail on the concrete
object without windowing attributes. -/
theorem c10_missing_windowing_fails_witness :
    simple_pixel_data_lut (fun _ => 0) c10Obj =
      .error (.err "The given image does not provide window levels :(") ∧
    (obj_to_imagedata (fun _ => 0) c10Obj [] none).1 =
      .error (.err "The given image does not provide window levels :(") :=
  ⟨(c10_missing_windowing_fails (fun _ => 0) c10Obj [] (Or.inl rfl)).1,
   (c10_missing_windowing_fails (fun _ => 0) c10Obj [] (Or.inl rfl)).2
     "MONOCHROME2" rfl (Or.inr rfl) 1 1 rfl rfl⟩

/-- An element holding the explicit string LINEAR, for comparison with the
default taken when VOILUTFunction is absent. -/
def linearElem : Elem := { asFloat := none, asStr := some "LINEAR", asInt := none }

/-- C9: every returned error of `update_pixel_data_lut_with` (unsupported VOI
LUT function name, malformed rescale attribute, or any other failure) leaves
the LUT contents exactly as before the call; a successful call repopulates
every entry with the windowed rescaled index; an absent VOILUTFunction
attribute behaves exactly as the LINEAR function. -/
theorem c9_update_lut_error_handling (fexp : ℚ → ℚ) (lut : List ℕ)
    (obj : DicomObject) (wl : WindowLevel) :
    (∀ e, (update_pixel_data_lut_with fexp lut obj wl).1 = .error e →
      (update_pixel_data_lut_with fexp lut obj wl).2 = lut) ∧
    ((update_pixel_data_lut_with fexp lut obj wl).1 = .ok () →
      (update_pixel_data_lut_with fexp lut obj wl).2.length = lut.length ∧
      ∃ slope intercept voi,
        rescaleSlopeOf obj = .ok slope ∧
        rescaleInterceptOf obj = .ok intercept ∧
        voiLutFunctionOf obj = .ok voi ∧
        ∀ i, i < lut.length → ∃ q,
          apply_window_level fexp ((i : ℚ) * slope + intercept) voi wl = .ok q ∧
          (update_pixel_data_lut_with fexp lut obj wl).2[i]? = some (f64AsU8 q)) ∧
    (obj.voiLutFunction = none →
      update_pixel_data_lut_with fexp lut obj wl =
        update_pixel_data_lut_with fexp lut
          { obj with voiLutFunction := some linearElem } wl) := by
  refine ⟨fun e herr => update_error_spec fexp lut obj wl e herr,
    fun hok => update_ok_spec fexp lut obj wl hok, ?_⟩
  intro hnone
  have hv : voiLutFunctionOf obj = .ok "LINEAR" := by
    simp [voiLutFunctionOf, hnone]
  unfold update_pixel_data_lut_with
  rw [hv]
  rfl

/-- Test object for the C9 witness: a malformed (non-numeric) RescaleSlope. -/
def c9Obj : DicomObject :=
  { windowWidth := none, windowCenter := none,
    rescaleSlope := some { asFloat := none, asStr := some "abc", asInt := none },
    rescaleIntercept := none, voiLutFunction := none, bitsStored := none,
    bitsAllocated := none, photometricInterpretation := none, rows := none,
    columns := none, samplesPerPixel := none, pixelData := none }

/-- C9 witness: a failed update (malformed RescaleSlope) leaves a concrete
two-entry LUT untouched. -/
theorem c9_update_lut_error_handling_witness :
    (update_pixel_data_lut_with (fun _ => 0) [7, 9] c9Obj
      { width := 2, center := 1 }).2 = [7, 9] :=
  (c9_update_lut_error_handling (fun _ => 0) [7, 9] c9Obj
    { width := 2, center := 1 }).1 (.err "RescaleSlope is not a number") rfl

/-- C2: for bits_stored in [1,16], a successfully built LUT has exactly
`2^bits_stored` entries, every entry in [0,255], and entry `i` is the selected
transfer function applied to `i * rescale_slope + rescale_intercept` (slope
defaulting to 1 and intercept to 0 when absent), truncated to a byte. -/
theorem c2_simple_pixel_data_lut_with_spec (fexp : ℚ → ℚ) (obj : DicomObject)
    (wl : WindowLevel) (bs : ℕ) (lut : List ℕ)
    (hbs : bitsStoredOf obj = .ok bs) (hmin : 1 ≤ bs) (hmax : bs ≤ 16)
    (hok : simple_pixel_data_lut_with fexp obj wl = .ok lut) :
    lut.length = 2 ^ bs ∧
    (∀ v ∈ lut, v ≤ 255) ∧
    ∃ slope intercept voi,
      rescaleSlopeOf obj = .ok slope ∧
      rescaleInterceptOf obj = .ok intercept ∧
      voiLutFunctionOf obj = .ok voi ∧
      (obj.rescaleSlope = none → slope = 1) ∧
      (obj.rescaleIntercept = none → intercept = 0) ∧
      ∀ i, i < lut.length → ∃ q,
        apply_window_level fexp ((i : ℚ) * slope + intercept) voi wl = .ok q ∧
        lut[i]? = some (f64AsU8 q) := by
  unfold simple_pixel_data_lut_with at hok
  simp only [hbs] at hok
  rcases hu : update_pixel_data_lut_with fexp (List.replicate (1 <<< bs) 0)
    obj wl with ⟨r1, r2⟩
  rw [hu] at hok
  cases r1 with
  | error e => simp at hok
  | ok u =>
    cases u
    have hlut : r2 = lut := by simpa using hok
    subst hlut
    have hfst : (update_pixel_data_lut_with fexp
        (List.replicate (1 <<< bs) 0) obj wl).1 = .ok () := by
      rw [hu]
    obtain ⟨hlen, slope, intercept, voi, hs, hi, hv, hpt⟩ :=
      update_ok_spec fexp (List.replicate (1 <<< bs) 0) obj wl hfst
    rw [hu] at hlen hpt
    simp only [List.length_replicate] at hlen hpt
    have hlen2 : r2.length = 2 ^ bs := by
      rw [hlen, Nat.shiftLeft_eq, one_mul]
    refine ⟨hlen2, ?_, slope, intercept, voi, hs, hi, hv, ?_, ?_, ?_⟩
    · intro v hv2
      obtain ⟨i, hilt, hgi⟩ := List.getElem_of_mem hv2
      obtain ⟨q, _, hq2⟩ := hpt i (by omega)
      have : r2[i]? = some v := by
        rw [List.getElem?_eq_getElem hilt, hgi]
      rw [this] at hq2
      have : v = f64AsU8 q := by simpa using hq2
      rw [this]
      exact f64AsU8_le q
    · intro hnone
      have : rescaleSlopeOf obj = .ok 1 := by simp [rescaleSlopeOf, hnone]
      rw [this] at hs
      simpa using hs.symm
    · intro hnone
      have : rescaleInterceptOf obj = .ok 0 := by
        simp [rescaleInterceptOf, hnone]
      rw [this] at hi
      simpa using hi.symm
    · intro i hilt
      exact hpt i (by omega)

/-- Test object for the C2 witness: bits_stored 1 and no rescale or VOI
attributes. -/
def c2Obj : DicomObject :=
  { windowWidth := none, windowCenter := none, rescaleSlope := none,
    rescaleIntercept := none, voiLutFunction := none,
    bitsStored := some { asFloat := none, asStr := none, asInt := some 1 },
    bitsAllocated := none, photometricInterpretation := none, rows := none,
    columns := none, samplesPerPixel := none, pixelData := none }

/-- C2 witness: the concrete two-entry LUT built with window width 2 and
center 1 has length `2^1` and all entries within a byte. -/
theorem c2_simple_pixel_data_lut_with_spec_witness :
    ([0, 255] : List ℕ).length = 2 ^ 1 ∧
    (∀ v ∈ ([0, 255] : List ℕ), v ≤ 255) :=
  have hok : simple_pixel_data_lut_with (fun _ => 0) c2Obj
      { width := 2, center := 1 } = .ok [0, 255] := by
    simp only [simple_pixel_data_lut_with, bitsStoredOf, c2Obj,
      update_pixel_data_lut_with, rescaleSlopeOf, rescaleInterceptOf,
      voiLutFunctionOf, lutLoop, apply_window_level, window_level_linear,
      f64AsU8, List.replicate]
    simp
    norm_num
    rfl
  ⟨(c2_simple_pixel_data_lut_with_spec (fun _ => 0) c2Obj
      { width := 2, center := 1 } 1 [0, 255] rfl (by norm_num) (by norm_num)
      hok).1,
   (c2_simple_pixel_data_lut_with_spec (fun _ => 0) c2Obj
      { width := 2, center := 1 } 1 [0, 255] rfl (by norm_num) (by norm_num)
      hok).2.1⟩

/-- A monochrome transcode whose samples all lie in the LUT domain succeeds
and leaves the expected RGBA quadruples in the buffer (8-bit and 16-bit
paths). -/
lemma convert_mono_ok (y_samples : List ℕ) (obj : DicomObject)
    (monochrome : Monochrome) (lut samples : List ℕ)
    (hsam : (bitsAllocatedOf obj = .ok 8 ∧ monoPixelBytesOf obj = .ok samples) ∨
      (bitsAllocatedOf obj = .ok 16 ∧ monoPixelU16Of obj = .ok samples))
    (hin : ∀ s ∈ samples, s < lut.length) :
    convert_monochrome_to_y_samples y_samples obj monochrome lut =
      (.ok (), monoOutputSpec monochrome lut samples) := by
  rcases hsam with ⟨hba, hpx⟩ | ⟨hba, hpx⟩
  · unfold convert_monochrome_to_y_samples
    simp only [hba, hpx, if_true]
    exact monoWrite_ok y_samples samples lut monochrome hin
  · unfold convert_monochrome_to_y_samples
    simp only [hba, hpx, if_true]
    exact monoWrite_ok y_samples samples lut monochrome hin

/-- C3: for a fixed LUT of bytes, 8-bit or 16-bit samples within the LUT
domain, the Monochrome1 transcode output equals 255 minus the Monochrome2
output in each of the R, G and B channels of every pixel, with the alpha
channel 255 in both. -/
theorem c3_monochrome_inversion (obj : DicomObject)
    (y_samples lut samples : List ℕ)
    (hsam : (bitsAllocatedOf obj = .ok 8 ∧ monoPixelBytesOf obj = .ok samples) ∨
      (bitsAllocatedOf obj = .ok 16 ∧ monoPixelU16Of obj = .ok samples))
    (hin : ∀ s ∈ samples, s < lut.length)
    (hbyte : ∀ v ∈ lut, v ≤ 255) :
    (convert_monochrome_to_y_samples y_samples obj .monochrome1 lut).1 =
      .ok () ∧
    (convert_monochrome_to_y_samples y_samples obj .monochrome2 lut).1 =
      .ok () ∧
    ∀ p, p < samples.length →
      (∀ k, k < 3 →
        (convert_monochrome_to_y_samples y_samples obj .monochrome1
          lut).2.getD (4 * p + k) 0 =
        255 - (convert_monochrome_to_y_samples y_samples obj .monochrome2
          lut).2.getD (4 * p + k) 0) ∧
      (convert_monochrome_to_y_samples y_samples obj .monochrome1
        lut).2.getD (4 * p + 3) 0 = 255 ∧
      (convert_monochrome_to_y_samples y_samples obj .monochrome2
        lut).2.getD (4 * p + 3) 0 = 255 := by
  have h1 := convert_mono_ok y_samples obj .monochrome1 lut samples hsam hin
  have h2 := convert_mono_ok y_samples obj .monochrome2 lut samples hsam hin
  have hc1 : (convert_monochrome_to_y_samples y_samples obj .monochrome1
      lut).2 = monoOutputSpec .monochrome1 lut samples := by rw [h1]
  have hc2 : (convert_monochrome_to_y_samples y_samples obj .monochrome2
      lut).2 = monoOutputSpec .monochrome2 lut samples := by rw [h2]
  refine ⟨by rw [h1], by rw [h2], ?_⟩
  intro p hp
  obtain ⟨a0, a1, a2, a3⟩ := monoOutputSpec_getD .monochrome1 lut samples p hp
  obtain ⟨b0, b1, b2, b3⟩ := monoOutputSpec_getD .monochrome2 lut samples p hp
  rw [hc1, hc2]
  refine ⟨?_, a3, b3⟩
  intro k hk
  interval_cases k
  · simp only [Nat.add_zero]
    rw [a0, b0]
    simp [monoPixel]
  · rw [a1, b1]
    simp [monoPixel]
  · rw [a2, b2]
    simp [monoPixel]

/-- Test object for the C3 witness: 8-bit samples `[0, 1]`. -/
def c3Obj : DicomObject :=
  { windowWidth := none, windowCenter := none, rescaleSlope := none,
    rescaleIntercept := none, voiLutFunction := none, bitsStored := none,
    bitsAllocated := some { asFloat := none, asStr := none, asInt := some 8 },
    photometricInterpretation := none, rows := none, columns := none,
    samplesPerPixel := none,
    pixelData := some { isPixelSequence := false, asBytes := some [0, 1], asU16 := none } }

/-- C3 witness: both transcodes succeed on a concrete object and the first
byte of the first pixel is inverted between the two interpretations. -/
theorem c3_monochrome_inversion_witness :
    (convert_monochrome_to_y_samples [] c3Obj .monochrome1 [10, 200]).1 =
      .ok () ∧
    (convert_monochrome_to_y_samples [] c3Obj .monochrome2 [10, 200]).1 =
      .ok () ∧
    (convert_monochrome_to_y_samples [] c3Obj .monochrome1
      [10, 200]).2.getD 0 0 =
      255 - (convert_monochrome_to_y_samples [] c3Obj .monochrome2
        [10, 200]).2.getD 0 0 :=
  have h := c3_monochrome_inversion c3Obj [] [10, 200] [0, 1]
    (Or.inl ⟨rfl, rfl⟩) (by decide) (by decide)
  ⟨h.1, h.2.1, by
    have := (h.2.2 0 (by norm_num)).1 0 (by norm_num)
    simpa using this⟩

/-- C6: a successful monochrome transcode always ends with the output buffer
at exactly `samples.length * 4` bytes with every pixel quadruple overwritten;
the conditional resize (filling new bytes with 255) runs exactly when the
buffer length differs from that target and precedes the writes, so a call
with an equal pixel count passes the buffer to the write loop unchanged and
only rewrites contents. -/
theorem c6_buffer_sizing (obj : DicomObject) (y_samples lut samples : List ℕ)
    (monochrome : Monochrome)
    (hsam : (bitsAllocatedOf obj = .ok 8 ∧ monoPixelBytesOf obj = .ok samples) ∨
      (bitsAllocatedOf obj = .ok 16 ∧ monoPixelU16Of obj = .ok samples))
    (hin : ∀ s ∈ samples, s < lut.length) :
    (convert_monochrome_to_y_samples y_samples obj monochrome lut).1 =
      .ok () ∧
    (convert_monochrome_to_y_samples y_samples obj monochrome lut).2.length =
      samples.length * 4 ∧
    (convert_monochrome_to_y_samples y_samples obj monochrome lut).2 =
      monoOutputSpec monochrome lut samples ∧
    (y_samples.length = samples.length * 4 →
      (if samples.length * 4 ≠ y_samples.length then
        resizeVec y_samples (samples.length * 4) 255
      else y_samples) = y_samples) ∧
    (y_samples.length ≠ samples.length * 4 →
      (if samples.length * 4 ≠ y_samples.length then
        resizeVec y_samples (samples.length * 4) 255
      else y_samples) = resizeVec y_samples (samples.length * 4) 255) := by
  have h := convert_mono_ok y_samples obj monochrome lut samples hsam hin
  refine ⟨by rw [h], ?_, by rw [h], ?_, ?_⟩
  · rw [h]
    simp only [monoOutputSpec_length]
    omega
  · intro hlen
    rw [if_neg (by omega)]
  · intro hlen
    rw [if_pos (by omega)]

/-- Test object for the C6 witness: 16-bit samples `[1, 0]`. -/
def c6Obj : DicomObject :=
  { windowWidth := none, windowCenter := none, rescaleSlope := none,
    rescaleIntercept := none, voiLutFunction := none, bitsStored := none,
    bitsAllocated := some { asFloat := none, asStr := none, asInt := some 16 },
    photometricInterpretation := none, rows := none, columns := none,
    samplesPerPixel := none,
    pixelData := some { isPixelSequence := false, asBytes := none, asU16 := some [1, 0] } }

/-- C6 witness: a concrete 16-bit transcode succeeds, leaves an 8-byte buffer,
and a buffer that already has 8 bytes is passed to the writes unresized. -/
theorem c6_buffer_sizing_witness :
    (convert_monochrome_to_y_samples [9, 9, 9, 9, 9, 9, 9, 9] c6Obj
      .monochrome2 [5, 6]).1 = .ok () ∧
    (convert_monochrome_to_y_samples [9, 9, 9, 9, 9, 9, 9, 9] c6Obj
      .monochrome2 [5, 6]).2.length = ([1, 0] : List ℕ).length * 4 ∧
    (if ([1, 0] : List ℕ).length * 4 ≠
        ([9, 9, 9, 9, 9, 9, 9, 9] : List ℕ).length then
      resizeVec [9, 9, 9, 9, 9, 9, 9, 9] (([1, 0] : List ℕ).length * 4) 255
    else [9, 9, 9, 9, 9, 9, 9, 9]) = [9, 9, 9, 9, 9, 9, 9, 9] :=
  have h := c6_buffer_sizing c6Obj [9, 9, 9, 9, 9, 9, 9, 9] [5, 6] [1, 0]
    .monochrome2 (Or.inr ⟨rfl, rfl⟩) (by decide)
  ⟨h.1, h.2.1, h.2.2.2.1 (by decide)⟩

/-- Test object for C4: 16-bit pixel data whose only sample, 4, falls outside
a 4-entry LUT. -/
def c4Obj : DicomObject :=
  { windowWidth := none, windowCenter := none, rescaleSlope := none,
    rescaleIntercept := none, voiLutFunction := none, bitsStored := none,
    bitsAllocated := some { asFloat := none, asStr := none, asInt := some 16 },
    photometricInterpretation := none, rows := none, columns := none,
    samplesPerPixel := none,
    pixelData := some { isPixelSequence := false, asBytes := none, asU16 := some [4] } }

/-- C4 counterexample: on an out-of-range 16-bit sample the transcoder does
not return a typed error value to the caller — the slice indexing
`lut[x as usize]` panics instead. -/
theorem c4_typed_error_counterexample :
    (convert_monochrome_to_y_samples [] c4Obj .monochrome2 [0, 0, 0, 0]).1 =
      .error (.panicked "index out of bounds") ∧
    ∀ msg, (convert_monochrome_to_y_samples [] c4Obj .monochrome2
      [0, 0, 0, 0]).1 ≠ .error (.err msg) := by
  refine ⟨rfl, ?_⟩
  intro msg h
  rw [show (convert_monochrome_to_y_samples [] c4Obj .monochrome2
      [0, 0, 0, 0]).1 = .error (.panicked "index out of bounds") from rfl] at h
  simp at h

/-- C4 amended: in the 16-bit monochrome transcode, a sample at or beyond the
LUT length always makes the call fail — loudly, with an index-out-of-bounds
panic (never a silent truncation or clamp) — but the failure is a panic, not
a typed error result. -/
theorem c4_out_of_range_panics (obj : DicomObject)
    (y_samples lut samples : List ℕ) (monochrome : Monochrome)
    (hba : bitsAllocatedOf obj = .ok 16)
    (hsam : monoPixelU16Of obj = .ok samples)
    (hoob : ∃ s ∈ samples, lut.length ≤ s) :
    (convert_monochrome_to_y_samples y_samples obj monochrome lut).1 =
      .error (.panicked "index out of bounds") := by
  unfold convert_monochrome_to_y_samples
  simp only [hba, hsam, if_true]
  exact monoWrite_oob y_samples samples lut monochrome hoob

/-- C4 witness: the panic on a concrete out-of-range sample under
Monochrome1. -/
theorem c4_out_of_range_panics_witness :
    (convert_monochrome_to_y_samples [] c4Obj .monochrome1 [0, 0, 0, 0]).1 =
      .error (.panicked "index out of bounds") :=
  c4_out_of_range_panics c4Obj [] [0, 0, 0, 0] [4] .monochrome1 rfl rfl
    ⟨4, by decide, by decide⟩

/-- C5: for an RGB object with 3 samples per pixel, the transcoder returns
the interleaved `(r, g, b, 255)` quadruples read directly from the raw bytes;
the reusable buffer and the cached LUT are passed through untouched and never
consulted, so the output is independent of the window level attributes and of
the LUT contents. -/
theorem c5_rgb_bypasses_lut (fexp : ℚ → ℚ) (obj : DicomObject)
    (y1 y2 : List ℕ) (lut1 lut2 : Option (List ℕ)) (w h : ℕ)
    (hpi : photometricInterpretationOf obj = .ok "RGB")
    (hw : columnsOf obj = .ok w) (hh : rowsOf obj = .ok h)
    (hspp : ∃ e, obj.samplesPerPixel = some e ∧ e.asInt = some 3) :
    obj_to_imagedata fexp obj y1 lut1 =
      (convert_rgb_to_imagedata obj w h, y1, lut1) ∧
    (obj_to_imagedata fexp obj y1 lut1).1 =
      (obj_to_imagedata fexp obj y2 lut2).1 ∧
    (∀ a b, (obj_to_imagedata fexp
        { obj with windowWidth := a, windowCenter := b } y2 lut2).1 =
      (obj_to_imagedata fexp obj y1 lut1).1) ∧
    (∀ samples data, rgbBytesOf obj = .ok samples →
      rgbTriples samples = .ok data → data.length = 4 * w * h →
      (obj_to_imagedata fexp obj y1 lut1).1 =
        .ok { data := data, width := w, height := h } ∧
      ∀ p : ℕ, data[4 * p]? = samples[3 * p]? ∧
        data[4 * p + 1]? = samples[3 * p + 1]? ∧
        data[4 * p + 2]? = samples[3 * p + 2]? ∧
        (3 * p + 2 < samples.length → data[4 * p + 3]? = some 255)) := by
  have ha : ∀ (y : List ℕ) (lut : Option (List ℕ)),
      obj_to_imagedata fexp obj y lut =
        (convert_rgb_to_imagedata obj w h, y, lut) := by
    intro y lut
    unfold obj_to_imagedata
    simp [hpi, hw, hh]
  refine ⟨ha y1 lut1, by rw [ha y1 lut1, ha y2 lut2], ?_, ?_⟩
  · intro a b
    have hpi2 : photometricInterpretationOf
        { obj with windowWidth := a, windowCenter := b } = .ok "RGB" := hpi
    have hw2 : columnsOf { obj with windowWidth := a, windowCenter := b } =
        .ok w := hw
    have hh2 : rowsOf { obj with windowWidth := a, windowCenter := b } =
        .ok h := hh
    have hb : obj_to_imagedata fexp
        { obj with windowWidth := a, windowCenter := b } y2 lut2 =
        (convert_rgb_to_imagedata
          { obj with windowWidth := a, windowCenter := b } w h, y2, lut2) := by
      unfold obj_to_imagedata
      simp [hpi2, hw2, hh2]
    rw [hb, ha y1 lut1]
    rfl
  · intro samples data hsamp htri hlen
    obtain ⟨e, he1, he2⟩ := hspp
    have hc : convert_rgb_to_imagedata obj w h =
        .ok { data := data, width := w, height := h } := by
      unfold convert_rgb_to_imagedata
      simp only [he1, he2, hsamp, htri]
      rw [if_neg (by norm_num)]
      simp only [hsamp, htri, imageDataOf]
      rw [if_pos hlen]
    refine ⟨by rw [ha y1 lut1, hc], rgbTriples_pixels samples data htri⟩

/-- Test object for the C5 witness: a 1-by-1 RGB object with raw bytes
`[1, 2, 3]`. -/
def c5Obj : DicomObject :=
  { windowWidth := none, windowCenter := none, rescaleSlope := none,
    rescaleIntercept := none, voiLutFunction := none, bitsStored := none,
    bitsAllocated := none,
    photometricInterpretation :=
      some { asFloat := none, asStr := some "RGB", asInt := none },
    rows := some { asFloat := none, asStr := none, asInt := some 1 },
    columns := some { asFloat := none, asStr := none, asInt := some 1 },
    samplesPerPixel := some { asFloat := none, asStr := none, asInt := some 3 },
    pixelData := some { isPixelSequence := false, asBytes := some [1, 2, 3], asU16 := none } }

/-- C5 witness: on the concrete RGB object the transcoder ignores the buffer
and LUT arguments and produces the `(1, 2, 3, 255)` pixel. -/
theorem c5_rgb_bypasses_lut_witness :
    obj_to_imagedata (fun _ => 0) c5Obj [7] (some [9]) =
      (convert_rgb_to_imagedata c5Obj 1 1, [7], some [9]) ∧
    (obj_to_imagedata (fun _ => 0) c5Obj [7] (some [9])).1 =
      .ok { data := [1, 2, 3, 255], width := 1, height := 1 } :=
  have h := c5_rgb_bypasses_lut (fun _ => 0) c5Obj [7] [] (some [9]) none 1 1
    rfl rfl rfl ⟨{ asFloat := none, asStr := none, asInt := some 3 }, rfl, rfl⟩
  ⟨h.1, (h.2.2.2 [1, 2, 3] [1, 2, 3, 255] rfl rfl (by decide)).1⟩
